import Mathlib

/-!
# rollercoaster.cpp: control flow of `main` and the calls it issues

The program is one procedure, `main`.  It is embedded as a function of what
its collaborators answer (window creation, API loader, model loader, shader
compiler, the window-close signal) that produces the exit status together
with the sequence of windowing and graphics calls issued.

Floating-point payloads (clear colour, the three matrices, the elapsed time)
are not represented: the calls that carry them are logged without them.
-/

namespace RollerCoaster

/-! ## Machine integers -/

/-- An unsigned 32-bit value (`GLuint`, `unsigned int`), kept as a natural number. -/
abbrev GLuint := Nat

/-- Conversion of a C `int` to `GLuint`: reduction modulo `2^32`, as performed
implicitly by `mesh_indices.push_back(... .vertex_index)`. -/
def toGLuint (v : Int) : GLuint := (v % 4294967296).toNat

/-- Conversion of a `size_t` value to `GLsizei` (a signed 32-bit `int`), as
performed implicitly on the second argument of `glDrawElements`. -/
def toGLsizei (n : Nat) : Int :=
  if n % 4294967296 < 2147483648 then (n % 4294967296 : Nat)
  else ((n % 4294967296 : Nat) : Int) - 4294967296

/-! ## Loader data (declared in `tiny_obj_loader.h`) -/

/-- One face corner, `tinyobj::index_t`: three C `int` fields. -/
structure index_t where
  vertex_index : Int
  normal_index : Int
  texcoord_index : Int
deriving DecidableEq, Repr

/-- The part of `tinyobj::mesh_t` the program reads: one `index_t` per face corner. -/
structure mesh_t where
  indices : List index_t
deriving DecidableEq, Repr

/-- The part of `tinyobj::shape_t` the program reads. -/
structure shape_t where
  mesh : mesh_t
deriving DecidableEq, Repr

/-! ## Calls -/

/-- Shader stage passed to `glCreateShader`. -/
inductive ShaderType where
  | GL_VERTEX_SHADER
  | GL_FRAGMENT_SHADER
deriving DecidableEq, Repr

/-- Primitive mode of a draw call. -/
inductive DrawMode where
  | GL_POINTS
  | GL_LINES
  | GL_TRIANGLES
  | GL_TRIANGLE_STRIP
  | GL_TRIANGLE_FAN
deriving DecidableEq, Repr

/-- Element type of the index data of a draw call. -/
inductive IndexType where
  | GL_UNSIGNED_BYTE
  | GL_UNSIGNED_SHORT
  | GL_UNSIGNED_INT
deriving DecidableEq, Repr

/-- Window hints set before the window is created. -/
inductive Hint where
  | GLFW_CONTEXT_VERSION_MAJOR
  | GLFW_CONTEXT_VERSION_MINOR
  | GLFW_OPENGL_PROFILE
deriving DecidableEq, Repr

/-- The three uniform names looked up in every frame. -/
inductive UniformName where
  | model
  | view
  | projection
deriving DecidableEq, Repr

/-- Calls into the windowing library, the API loader, the model loader and the
graphics API.  The last four constructors are calls the graphics API offers
for creating and filling vertex-array and buffer objects. -/
inductive Call where
  | glfwInit
  | glfwWindowHint (hint : Hint)
  | glfwCreateWindow (width height : Nat)
  | glfwMakeContextCurrent
  | gladLoadGLLoader
  | LoadObj
  | glCreateShader (type : ShaderType)
  | glShaderSource (shader : GLuint)
  | glCompileShader (shader : GLuint)
  | glCreateProgram
  | glAttachShader (program shader : GLuint)
  | glLinkProgram (program : GLuint)
  | glDeleteShader (shader : GLuint)
  | glUseProgram (program : GLuint)
  | glClearColor
  | glClear
  | glfwGetTime
  | glGetUniformLocation (program : GLuint) (name : UniformName)
  | glUniformMatrix4fv (name : UniformName)
  | glBindVertexArray (array : GLuint)
  | glDrawElements (mode : DrawMode) (count : Int) (type : IndexType)
  | glfwSwapBuffers
  | glfwPollEvents
  | glfwTerminate
  | glGenVertexArrays
  | glGenBuffers
  | glBindBuffer (buffer : GLuint)
  | glBufferData
deriving DecidableEq, Repr

/-- A call that creates a vertex-array object or a buffer object. -/
def Call.isCreation : Call → Bool
  | .glGenVertexArrays => true
  | .glGenBuffers => true
  | _ => false

/-- A call that binds a vertex array with a non-zero name. -/
def Call.isNonzeroBind : Call → Bool
  | .glBindVertexArray a => decide (a ≠ 0)
  | _ => false

/-- A call that is an indexed draw. -/
def Call.isDraw : Call → Bool
  | .glDrawElements _ _ _ => true
  | _ => false

/-! ## Environment -/

/-- What the collaborators answer during one run of `main`. -/
structure Env where
  /-- `glfwCreateWindow` returned a non-null window. -/
  window : Bool
  /-- `gladLoadGLLoader` returned non-zero. -/
  glad : Bool
  /-- The error string written by `tinyobj::LoadObj`. -/
  err : String
  /-- The value returned by `tinyobj::LoadObj`. -/
  success : Bool
  /-- The shapes written by `tinyobj::LoadObj`. -/
  shapes : List shape_t
  /-- Name returned by `glCreateShader(GL_VERTEX_SHADER)`. -/
  vertexShader : GLuint
  /-- Name returned by `glCreateShader(GL_FRAGMENT_SHADER)`. -/
  fragmentShader : GLuint
  /-- Name returned by `glCreateProgram()`. -/
  shaderProgram : GLuint
  /-- Whether `glCompileShader(vertexShader)` succeeded. -/
  vertexCompiled : Bool
  /-- Whether `glCompileShader(fragmentShader)` succeeded. -/
  fragmentCompiled : Bool
  /-- Whether `glLinkProgram(shaderProgram)` succeeded. -/
  programLinked : Bool
  /-- Answer of the `k`-th call (from 0) of `glfwWindowShouldClose`. -/
  shouldClose : Nat → Bool

/-- The close signal is sticky: once raised it stays raised. -/
def Sticky (close : Nat → Bool) : Prop :=
  ∀ k, close k = true → close (k + 1) = true

/-- Every initialisation check of `main` passes. -/
def Env.initOk (e : Env) : Bool :=
  e.window && e.glad && e.err.isEmpty && e.success

/-! ## The program -/

/-- The fill loop of lines 115-117: corner after corner, the vertex index is
pushed at the back of `mesh_indices`.  The counter `i` of the source is a
`long` compared with a `size_t`; the number of corners is taken to be within
the range of `long`, so the loop visits the corners `0 .. size-1` in order. -/
def fillIndexArray : List index_t → List GLuint → List GLuint
  | [], mesh_indices => mesh_indices
  | ix :: rest, mesh_indices => fillIndexArray rest (mesh_indices ++ [toGLuint ix.vertex_index])

/-- One completed iteration of the render loop.  `s` and `mesh_indices` record
the shape number and the index list in scope; `calls` are the calls issued. -/
structure Frame where
  s : Nat
  mesh_indices : List GLuint
  calls : List Call
deriving DecidableEq, Repr

/-- Calls of lines 121-138: clear, then model, view and projection uploads. -/
def frameHead (e : Env) : List Call :=
  [ .glClearColor, .glClear,
    .glfwGetTime,
    .glGetUniformLocation e.shaderProgram .model, .glUniformMatrix4fv .model,
    .glGetUniformLocation e.shaderProgram .view, .glUniformMatrix4fv .view,
    .glGetUniformLocation e.shaderProgram .projection, .glUniformMatrix4fv .projection ]

/-- Calls of lines 148-156, given the value `v` read from `mesh_indices[s]`
and the size of `mesh_indices`. -/
def frameTail (v : GLuint) (size : Nat) : List Call :=
  [ .glBindVertexArray v,
    .glDrawElements .GL_TRIANGLES (toGLsizei (size / 3)) .GL_UNSIGNED_INT,
    .glBindVertexArray 0,
    .glfwSwapBuffers,
    .glfwPollEvents ]

/-- State threaded through the two loops. -/
structure LoopSt where
  /-- Number of calls of `glfwWindowShouldClose` made so far. -/
  polls : Nat
  /-- Completed frames, oldest first. -/
  frames : List Frame
  /-- Calls of a frame cut short by an out-of-bounds read. -/
  aborted : List Call
deriving DecidableEq, Repr

/-- How a render loop stops. -/
inductive Stop where
  /-- `glfwWindowShouldClose` answered true. -/
  | closed
  /-- `mesh_indices[s]` was read with `s` not below `mesh_indices.size()`. -/
  | fault
  /-- The iteration budget was used up with the window still open. -/
  | outOfFuel
deriving DecidableEq, Repr

/-- The render loop of lines 120-157 for shape number `s`.  `fuel` bounds the
number of evaluations of the loop condition. -/
def renderLoop (e : Env) (s : Nat) (mesh_indices : List GLuint) : Nat → LoopSt → Stop × LoopSt
  | 0, st => (.outOfFuel, st)
  | fuel + 1, st =>
    if e.shouldClose st.polls then
      (.closed, { st with polls := st.polls + 1 })
    else
      match mesh_indices[s]? with
      | none => (.fault, { st with polls := st.polls + 1, aborted := frameHead e })
      | some v =>
        renderLoop e s mesh_indices fuel
          { polls := st.polls + 1
            frames := st.frames ++
              [{ s := s, mesh_indices := mesh_indices,
                 calls := frameHead e ++ frameTail v mesh_indices.length }]
            aborted := st.aborted }

/-- The shape loop of lines 102-158 over the shapes from number `s` on. -/
def shapeLoop (e : Env) (fuel : Nat) : List shape_t → Nat → LoopSt → Stop × LoopSt
  | [], _, st => (.closed, st)
  | sh :: rest, s, st =>
    match renderLoop e s (fillIndexArray sh.mesh.indices []) fuel st with
    | (.closed, st1) => shapeLoop e fuel rest (s + 1) st1
    | r => r

/-- How a run of `main` ends. -/
inductive Status where
  /-- The function `main` returned this value. -/
  | exited (code : Int)
  /-- An out-of-bounds read of `mesh_indices[s]` was performed. -/
  | fault
  /-- The iteration budget was used up with the window still open. -/
  | outOfFuel
deriving DecidableEq, Repr

/-- Observable record of a run. -/
structure Run where
  status : Status
  /-- Number of calls of `glfwWindowShouldClose`. -/
  polls : Nat
  /-- Calls issued before the shape loop. -/
  setup : List Call
  /-- Completed frames, oldest first. -/
  frames : List Frame
  /-- Calls of a frame cut short by an out-of-bounds read. -/
  aborted : List Call
  /-- Calls issued after the shape loop. -/
  teardown : List Call
deriving DecidableEq, Repr

/-- All calls of a run, in the order issued. -/
def Run.calls (r : Run) : List Call :=
  r.setup ++ (r.frames.map Frame.calls).flatten ++ r.aborted ++ r.teardown

/-- Calls of lines 38-44. -/
def windowCalls : List Call :=
  [ .glfwInit,
    .glfwWindowHint .GLFW_CONTEXT_VERSION_MAJOR,
    .glfwWindowHint .GLFW_CONTEXT_VERSION_MINOR,
    .glfwWindowHint .GLFW_OPENGL_PROFILE,
    .glfwCreateWindow 800 600 ]

/-- Calls of lines 76-92. -/
def shaderCalls (e : Env) : List Call :=
  [ .glCreateShader .GL_VERTEX_SHADER,
    .glShaderSource e.vertexShader,
    .glCompileShader e.vertexShader,
    .glCreateShader .GL_FRAGMENT_SHADER,
    .glShaderSource e.fragmentShader,
    .glCompileShader e.fragmentShader,
    .glCreateProgram,
    .glAttachShader e.shaderProgram e.vertexShader,
    .glAttachShader e.shaderProgram e.fragmentShader,
    .glLinkProgram e.shaderProgram,
    .glDeleteShader e.vertexShader,
    .glDeleteShader e.fragmentShader,
    .glUseProgram e.shaderProgram ]

/-- The function `main`.  `fuel` bounds the number of evaluations of the
condition of each render loop. -/
def main (e : Env) (fuel : Nat) : Run :=
  if !e.window then
    { status := .exited (-1), polls := 0, setup := windowCalls ++ [.glfwTerminate],
      frames := [], aborted := [], teardown := [] }
  else if !e.glad then
    { status := .exited (-1), polls := 0,
      setup := windowCalls ++ [.glfwMakeContextCurrent, .gladLoadGLLoader],
      frames := [], aborted := [], teardown := [] }
  else if !e.err.isEmpty then
    { status := .exited (-1), polls := 0,
      setup := windowCalls ++ [.glfwMakeContextCurrent, .gladLoadGLLoader, .LoadObj],
      frames := [], aborted := [], teardown := [] }
  else if !e.success then
    { status := .exited (-1), polls := 0,
      setup := windowCalls ++ [.glfwMakeContextCurrent, .gladLoadGLLoader, .LoadObj],
      frames := [], aborted := [], teardown := [] }
  else
    let setup := windowCalls ++ [.glfwMakeContextCurrent, .gladLoadGLLoader, .LoadObj]
      ++ shaderCalls e
    match shapeLoop e fuel e.shapes 0 { polls := 0, frames := [], aborted := [] } with
    | (.closed, st) =>
      { status := .exited 0, polls := st.polls, setup := setup, frames := st.frames,
        aborted := st.aborted, teardown := [.glfwTerminate] }
    | (.fault, st) =>
      { status := .fault, polls := st.polls, setup := setup, frames := st.frames,
        aborted := st.aborted, teardown := [] }
    | (.outOfFuel, st) =>
      { status := .outOfFuel, polls := st.polls, setup := setup, frames := st.frames,
        aborted := st.aborted, teardown := [] }

/-! ## Sample inputs -/

/-- A corner that refers to vertex `v` only. -/
def corner (v : Int) : index_t :=
  { vertex_index := v, normal_index := -1, texcoord_index := -1 }

/-- A shape made of the corners with the given vertex indices. -/
def shapeOf (vs : List Int) : shape_t :=
  { mesh := { indices := vs.map corner } }

/-- An environment in which every initialisation step succeeds. -/
def okEnv (shapes : List shape_t) (close : Nat → Bool) : Env :=
  { window := true, glad := true, err := "", success := true, shapes := shapes,
    vertexShader := 1, fragmentShader := 2, shaderProgram := 3,
    vertexCompiled := true, fragmentCompiled := true, programLinked := true,
    shouldClose := close }

/-- Two shapes of one triangle each; the window is closed after two frames. -/
def twoShapes : Env :=
  okEnv [shapeOf [5, 6, 7], shapeOf [1, 2, 3]] (fun k => decide (2 ≤ k))

/-- One shape of one triangle on vertices 0, 1, 2; the window is closed after one frame. -/
def oneTriangle : Env :=
  okEnv [shapeOf [0, 1, 2]] (fun k => decide (1 ≤ k))

/-- A first shape without any face corner, and a window that is never closed. -/
def emptyFirst : Env :=
  okEnv [shapeOf [], shapeOf [1, 2, 3]] (fun _ => false)

/-- A model without shapes, and a window that is never closed. -/
def noShapes : Env :=
  okEnv [] (fun _ => false)

/-- As `twoShapes`, with a vertex shader that fails to compile, a fragment
shader that fails to compile and a program that fails to link. -/
def brokenShaders : Env :=
  { twoShapes with vertexCompiled := false, fragmentCompiled := false, programLinked := false }

/-- As `twoShapes`, with a loader that reports an error. -/
def loaderError : Env :=
  { twoShapes with err := "cannot open file", success := false }

/-- A call that binds a vertex array. -/
def Call.isBind : Call → Bool
  | .glBindVertexArray _ => true
  | _ => false

/-- The calls of a frame that come before its first draw call. -/
def Frame.beforeDraw (f : Frame) : List Call :=
  f.calls.takeWhile (fun c => !c.isDraw)

/-- What a completed frame of a run in environment `e` looks like: it belongs
to shape number `s` of the model, `mesh_indices` is the index list built from
that shape, the read `mesh_indices[s]` gave `v`, and the calls are those of
lines 121-156 with that `v`. -/
def Frame.ofShape (e : Env) (f : Frame) : Prop :=
  ∃ sh v, e.shapes[f.s]? = some sh ∧
    f.mesh_indices = fillIndexArray sh.mesh.indices [] ∧
    f.mesh_indices[f.s]? = some v ∧
    f.calls = frameHead e ++ frameTail v f.mesh_indices.length

/-- The frame drawn for the first shape of `twoShapes`. -/
def firstFrame : Frame :=
  { s := 0, mesh_indices := [5, 6, 7], calls := frameHead twoShapes ++ frameTail 5 3 }

/-! ## The fill loop -/

theorem fillIndexArray_eq (ixs : List index_t) (acc : List GLuint) :
    fillIndexArray ixs acc = acc ++ ixs.map (fun ix => toGLuint ix.vertex_index) := by
  induction ixs generalizing acc with
  | nil => simp [fillIndexArray]
  | cons ix rest ih => simp [fillIndexArray, ih]

theorem toGLuint_of_nonneg (v : Int) (h0 : 0 ≤ v) (h1 : v < 4294967296) :
    ((toGLuint v : Nat) : Int) = v := by
  unfold toGLuint
  rw [Int.emod_eq_of_lt h0 h1]
  exact Int.toNat_of_nonneg h0

/-! ## The render loop -/

theorem renderLoop_frames_inv (e : Env) (s : Nat) (m : List GLuint) (P : Frame → Prop)
    (hP : ∀ v, m[s]? = some v →
      P { s := s, mesh_indices := m, calls := frameHead e ++ frameTail v m.length })
    (fuel : Nat) (st : LoopSt) (hst : ∀ f ∈ st.frames, P f) :
    ∀ f ∈ (renderLoop e s m fuel st).2.frames, P f := by
  induction fuel generalizing st with
  | zero => simpa [renderLoop] using hst
  | succ fuel ih =>
    unfold renderLoop
    by_cases hc : e.shouldClose st.polls = true
    · simpa [hc] using hst
    · simp only [hc, Bool.false_eq_true, if_false]
      cases hm : m[s]? with
      | none => simpa using hst
      | some v =>
        simp only
        apply ih
        intro f hf
        simp only [List.mem_append, List.mem_singleton] at hf
        rcases hf with hf | hf
        · exact hst f hf
        · rw [hf]; exact hP v hm

theorem renderLoop_of_close (e : Env) (s : Nat) (m : List GLuint) (fuel : Nat) (st : LoopSt)
    (hc : e.shouldClose st.polls = true) :
    renderLoop e s m (fuel + 1) st = (.closed, { st with polls := st.polls + 1 }) := by
  simp [renderLoop, hc]

theorem renderLoop_closed_polls (e : Env) (s : Nat) (m : List GLuint) (fuel : Nat)
    (st : LoopSt) (h : (renderLoop e s m fuel st).1 = .closed) :
    ∃ k, (renderLoop e s m fuel st).2.polls = k + 1 ∧ e.shouldClose k = true := by
  induction fuel generalizing st with
  | zero => simp [renderLoop] at h
  | succ fuel ih =>
    unfold renderLoop at h ⊢
    by_cases hc : e.shouldClose st.polls = true
    · exact ⟨st.polls, by simp [hc], hc⟩
    · simp only [hc, Bool.false_eq_true, if_false] at h ⊢
      cases hm : m[s]? with
      | none => simp [hm] at h
      | some v =>
        simp only [hm] at h ⊢
        exact ih _ h

theorem renderLoop_no_fault (e : Env) (s : Nat) (m : List GLuint) (hs : s < m.length)
    (fuel : Nat) (st : LoopSt) :
    (renderLoop e s m fuel st).1 ≠ .fault ∧
      (renderLoop e s m fuel st).2.aborted = st.aborted := by
  induction fuel generalizing st with
  | zero => simp [renderLoop]
  | succ fuel ih =>
    unfold renderLoop
    by_cases hc : e.shouldClose st.polls = true
    · simp [hc]
    · simp only [hc, Bool.false_eq_true, if_false]
      have hm : m[s]? = some m[s] := List.getElem?_eq_getElem hs
      simp only [hm]
      exact ih _

theorem renderLoop_terminates (e : Env) (s : Nat) (m : List GLuint) (hs : s < m.length)
    (k : Nat) (hk : e.shouldClose k = true) (fuel : Nat) (st : LoopSt)
    (hle : st.polls ≤ k) (hfuel : k < st.polls + fuel) :
    (renderLoop e s m fuel st).1 = .closed := by
  induction fuel generalizing st with
  | zero => omega
  | succ fuel ih =>
    unfold renderLoop
    by_cases hc : e.shouldClose st.polls = true
    · simp [hc]
    · simp only [hc, Bool.false_eq_true, if_false]
      have hm : m[s]? = some m[s] := List.getElem?_eq_getElem hs
      simp only [hm]
      have hne : st.polls ≠ k := fun h => hc (h ▸ hk)
      apply ih
      · show st.polls + 1 ≤ k
        omega
      · show k < st.polls + 1 + fuel
        omega

/-! ## The shape loop -/

theorem shapeLoop_of_close (e : Env) (hs : Sticky e.shouldClose) (fuel : Nat)
    (l : List shape_t) (s : Nat) (st : LoopSt) (hc : e.shouldClose st.polls = true) :
    (shapeLoop e fuel l s st).2.frames = st.frames ∧
      (shapeLoop e fuel l s st).2.aborted = st.aborted ∧
      (shapeLoop e fuel l s st).1 ≠ .fault ∧
      (0 < fuel → (shapeLoop e fuel l s st).1 = .closed) := by
  induction l generalizing s st with
  | nil => simp [shapeLoop]
  | cons sh rest ih =>
    cases fuel with
    | zero => simp [shapeLoop, renderLoop]
    | succ fuel =>
      have h1 := renderLoop_of_close e s (fillIndexArray sh.mesh.indices []) fuel st hc
      have h2 := ih (s + 1) { st with polls := st.polls + 1 } (hs _ hc)
      simp only [shapeLoop, h1]
      simpa using h2

theorem shapeLoop_frames_inv (e : Env) (fuel : Nat) (P : Frame → Prop) (l : List shape_t)
    (s : Nat)
    (hP : ∀ i sh v, l[i]? = some sh → (fillIndexArray sh.mesh.indices [])[s + i]? = some v →
      P { s := s + i, mesh_indices := fillIndexArray sh.mesh.indices [],
          calls := frameHead e ++ frameTail v (fillIndexArray sh.mesh.indices []).length })
    (st : LoopSt) (hst : ∀ f ∈ st.frames, P f) :
    ∀ f ∈ (shapeLoop e fuel l s st).2.frames, P f := by
  induction l generalizing s st with
  | nil => simpa [shapeLoop] using hst
  | cons sh rest ih =>
    have h1 := renderLoop_frames_inv e s (fillIndexArray sh.mesh.indices []) P
      (fun v hv => by simpa using hP 0 sh v (by simp) (by simpa using hv)) fuel st hst
    unfold shapeLoop
    generalize renderLoop e s (fillIndexArray sh.mesh.indices []) fuel st = r at h1
    rcases r with ⟨stop, st1⟩
    cases stop with
    | closed =>
      simp only
      apply ih (s + 1) _ st1 h1
      intro i sh2 v hi hv
      have h3 := hP (i + 1) sh2 v (by simpa using hi)
        (by rw [← hv]; congr 1; omega)
      have h4 : s + (i + 1) = s + 1 + i := by omega
      rw [h4] at h3
      exact h3
    | fault => simpa using h1
    | outOfFuel => simpa using h1

/-! ## Unfolding `main` -/

theorem initOk_iff (e : Env) :
    e.initOk = true ↔
      ¬ (e.window = false ∨ e.glad = false ∨ e.err.isEmpty = false ∨ e.success = false) := by
  unfold Env.initOk
  cases e.window <;> cases e.glad <;> cases e.err.isEmpty <;> cases e.success <;> simp

theorem main_of_initFail (e : Env) (fuel : Nat) (h : e.initOk = false) :
    (main e fuel).status = .exited (-1) ∧ (main e fuel).polls = 0 ∧
      (main e fuel).frames = [] ∧ (main e fuel).aborted = [] ∧
      (main e fuel).teardown = [] ∧
      ∀ c ∈ (main e fuel).setup, c.isDraw = false ∧ c.isCreation = false ∧
        c.isNonzeroBind = false := by
  unfold Env.initOk at h
  unfold main
  cases hw : e.window <;> cases hg : e.glad <;> cases he : e.err.isEmpty <;>
    cases hsu : e.success <;> simp_all [windowCalls, Call.isDraw, Call.isCreation,
      Call.isNonzeroBind]

theorem main_of_initOk (e : Env) (fuel : Nat) (h : e.initOk = true) :
    (main e fuel).polls = (shapeLoop e fuel e.shapes 0 ⟨0, [], []⟩).2.polls ∧
      (main e fuel).frames = (shapeLoop e fuel e.shapes 0 ⟨0, [], []⟩).2.frames ∧
      (main e fuel).aborted = (shapeLoop e fuel e.shapes 0 ⟨0, [], []⟩).2.aborted ∧
      (main e fuel).setup = windowCalls ++
        [.glfwMakeContextCurrent, .gladLoadGLLoader, .LoadObj] ++ shaderCalls e ∧
      (main e fuel).status =
        (match (shapeLoop e fuel e.shapes 0 ⟨0, [], []⟩).1 with
          | .closed => .exited 0
          | .fault => .fault
          | .outOfFuel => .outOfFuel) ∧
      (main e fuel).teardown =
        (match (shapeLoop e fuel e.shapes 0 ⟨0, [], []⟩).1 with
          | .closed => [.glfwTerminate]
          | _ => []) := by
  unfold Env.initOk at h
  simp only [Bool.and_eq_true] at h
  obtain ⟨⟨⟨hw, hg⟩, he⟩, hsu⟩ := h
  unfold main
  simp only [hw, hg, he, hsu, Bool.not_true, Bool.false_eq_true, if_false]
  generalize shapeLoop e fuel e.shapes 0 ⟨0, [], []⟩ = r
  rcases r with ⟨stop, st⟩
  cases stop <;> simp

theorem shapeLoop_cons_sticky (e : Env) (hs : Sticky e.shouldClose) (fuel : Nat)
    (sh : shape_t) (rest : List shape_t) (s : Nat) (st : LoopSt) :
    (shapeLoop e fuel (sh :: rest) s st).1 =
        (renderLoop e s (fillIndexArray sh.mesh.indices []) fuel st).1 ∧
      (shapeLoop e fuel (sh :: rest) s st).2.frames =
        (renderLoop e s (fillIndexArray sh.mesh.indices []) fuel st).2.frames ∧
      (shapeLoop e fuel (sh :: rest) s st).2.aborted =
        (renderLoop e s (fillIndexArray sh.mesh.indices []) fuel st).2.aborted := by
  cases fuel with
  | zero => simp [shapeLoop, renderLoop]
  | succ fuel =>
    have h1 := renderLoop_closed_polls e s (fillIndexArray sh.mesh.indices []) (fuel + 1) st
    unfold shapeLoop
    generalize renderLoop e s (fillIndexArray sh.mesh.indices []) (fuel + 1) st = r at h1
    rcases r with ⟨stop, st1⟩
    cases stop with
    | closed =>
      obtain ⟨k, hk, hck⟩ := h1 rfl
      have hc : e.shouldClose st1.polls = true := by
        have : st1.polls = k + 1 := hk
        rw [this]; exact hs k hck
      have h2 := shapeLoop_of_close e hs (fuel + 1) rest (s + 1) st1 hc
      exact ⟨h2.2.2.2 (Nat.succ_pos _), h2.1, h2.2.1⟩
    | fault => simp
    | outOfFuel => simp

theorem main_frames_ofShape (e : Env) (fuel : Nat) :
    ∀ f ∈ (main e fuel).frames, Frame.ofShape e f := by
  cases h : e.initOk with
  | false => simp [(main_of_initFail e fuel h).2.2.1]
  | true =>
    rw [(main_of_initOk e fuel h).2.1]
    apply shapeLoop_frames_inv e fuel (Frame.ofShape e) e.shapes 0
    · intro i sh v hi hv
      refine ⟨sh, v, ?_, rfl, hv, rfl⟩
      simpa using hi
    · simp

theorem frameHead_no_draw (e : Env) :
    ∀ c ∈ frameHead e, c.isDraw = false ∧ c.isCreation = false ∧ c.isBind = false := by
  simp [frameHead, Call.isDraw, Call.isCreation, Call.isBind]

theorem frame_draws (e : Env) (v : GLuint) (n : Nat) :
    (frameHead e ++ frameTail v n).filter Call.isDraw =
      [.glDrawElements .GL_TRIANGLES (toGLsizei (n / 3)) .GL_UNSIGNED_INT] := by
  simp [frameHead, frameTail, Call.isDraw, List.filter]

theorem frame_binds_beforeDraw (e : Env) (v : GLuint) (n : Nat) :
    ((frameHead e ++ frameTail v n).takeWhile (fun c => !c.isDraw)).filter Call.isBind =
      [.glBindVertexArray v] := by
  simp [frameHead, frameTail, Call.isDraw, Call.isBind, List.filter, List.takeWhile]

theorem frame_binds (e : Env) (v : GLuint) (n : Nat) :
    (frameHead e ++ frameTail v n).filter Call.isBind =
      [.glBindVertexArray v, .glBindVertexArray 0] := by
  simp [frameHead, frameTail, Call.isBind, List.filter]

theorem frame_no_creation (e : Env) (v : GLuint) (n : Nat) :
    ∀ c ∈ frameHead e ++ frameTail v n, c.isCreation = false := by
  simp [frameHead, frameTail, Call.isCreation]

theorem sticky_threshold (n : Nat) : Sticky (fun k => decide (n ≤ k)) := by
  intro k h
  simp only [decide_eq_true_eq] at h ⊢
  omega

theorem sticky_never : Sticky (fun _ => false) := by
  intro k h
  simp at h

theorem main_calls_no_draw_of_initFail (e : Env) (fuel : Nat) (h : e.initOk = false) :
    ∀ c ∈ (main e fuel).calls, c.isDraw = false := by
  obtain ⟨_, _, hf, ha, ht, hsetup⟩ := main_of_initFail e fuel h
  intro c hc
  simp only [Run.calls, hf, ha, ht, List.map_nil, List.flatten_nil, List.append_nil] at hc
  exact (hsetup c hc).1

theorem main_status_of_initOk (e : Env) (fuel : Nat) (h : e.initOk = true) :
    (main e fuel).status = .exited 0 ∨ (main e fuel).status = .fault ∨
      (main e fuel).status = .outOfFuel := by
  rw [(main_of_initOk e fuel h).2.2.2.2.1]
  cases (shapeLoop e fuel e.shapes 0 ⟨0, [], []⟩).1 <;> simp

theorem fill_length (sh : shape_t) :
    (fillIndexArray sh.mesh.indices []).length = sh.mesh.indices.length := by
  simp [fillIndexArray_eq]

theorem renderLoop_aborted (e : Env) (s : Nat) (m : List GLuint) (fuel : Nat) (st : LoopSt)
    (hst : st.aborted = [] ∨ st.aborted = frameHead e) :
    (renderLoop e s m fuel st).2.aborted = [] ∨
      (renderLoop e s m fuel st).2.aborted = frameHead e := by
  induction fuel generalizing st with
  | zero => simpa [renderLoop] using hst
  | succ fuel ih =>
    unfold renderLoop
    by_cases hc : e.shouldClose st.polls = true
    · simpa [hc] using hst
    · simp only [hc, Bool.false_eq_true, if_false]
      cases hm : m[s]? with
      | none => simp
      | some v => exact ih _ hst

theorem shapeLoop_aborted (e : Env) (fuel : Nat) (l : List shape_t) (s : Nat) (st : LoopSt)
    (hst : st.aborted = [] ∨ st.aborted = frameHead e) :
    (shapeLoop e fuel l s st).2.aborted = [] ∨
      (shapeLoop e fuel l s st).2.aborted = frameHead e := by
  induction l generalizing s st with
  | nil => simpa [shapeLoop] using hst
  | cons sh rest ih =>
    have h1 := renderLoop_aborted e s (fillIndexArray sh.mesh.indices []) fuel st hst
    unfold shapeLoop
    generalize renderLoop e s (fillIndexArray sh.mesh.indices []) fuel st = r at h1
    rcases r with ⟨stop, st1⟩
    cases stop with
    | closed => exact ih (s + 1) st1 h1
    | fault => simpa using h1
    | outOfFuel => simpa using h1

theorem setup_no_creation (e : Env) :
    ∀ c ∈ windowCalls ++ [.glfwMakeContextCurrent, .gladLoadGLLoader, .LoadObj] ++
      shaderCalls e, c.isCreation = false := by
  simp [windowCalls, shaderCalls, Call.isCreation]

theorem main_calls_no_creation (e : Env) (fuel : Nat) :
    ∀ c ∈ (main e fuel).calls, c.isCreation = false := by
  intro c hc
  simp only [Run.calls, List.mem_append, List.mem_flatten, List.mem_map] at hc
  rcases hc with ((hc | ⟨l, ⟨f, hf, rfl⟩, hc⟩) | hc) | hc
  · cases h : e.initOk with
    | false => exact ((main_of_initFail e fuel h).2.2.2.2.2 c hc).2.1
    | true =>
      rw [(main_of_initOk e fuel h).2.2.2.1] at hc
      exact setup_no_creation e c hc
  · obtain ⟨sh, v, _, _, _, hcalls⟩ := main_frames_ofShape e fuel f hf
    rw [hcalls] at hc
    exact frame_no_creation e v _ c hc
  · cases h : e.initOk with
    | false => simp [(main_of_initFail e fuel h).2.2.2.1] at hc
    | true =>
      rw [(main_of_initOk e fuel h).2.2.1] at hc
      rcases shapeLoop_aborted e fuel e.shapes 0 ⟨0, [], []⟩ (Or.inl rfl) with h1 | h1
      · simp [h1] at hc
      · rw [h1] at hc
        exact (frameHead_no_draw e c hc).2.1
  · cases h : e.initOk with
    | false => simp [(main_of_initFail e fuel h).2.2.2.2.1] at hc
    | true =>
      rw [(main_of_initOk e fuel h).2.2.2.2.2] at hc
      cases hst : (shapeLoop e fuel e.shapes 0 ⟨0, [], []⟩).1 <;> simp [hst] at hc
      rw [hc]; rfl

theorem renderLoop_congr (e1 e2 : Env) (hclose : e1.shouldClose = e2.shouldClose)
    (hhead : frameHead e1 = frameHead e2) (s : Nat) (m : List GLuint) (fuel : Nat)
    (st : LoopSt) : renderLoop e1 s m fuel st = renderLoop e2 s m fuel st := by
  induction fuel generalizing st with
  | zero => rfl
  | succ fuel ih =>
    unfold renderLoop
    rw [hclose, hhead]
    by_cases hc : e2.shouldClose st.polls = true
    · simp [hc]
    · simp only [hc, Bool.false_eq_true, if_false]
      cases hm : m[s]? with
      | none => rfl
      | some v => exact ih _

theorem shapeLoop_congr (e1 e2 : Env) (hclose : e1.shouldClose = e2.shouldClose)
    (hhead : frameHead e1 = frameHead e2) (fuel : Nat) (l : List shape_t) (s : Nat)
    (st : LoopSt) : shapeLoop e1 fuel l s st = shapeLoop e2 fuel l s st := by
  induction l generalizing s st with
  | nil => rfl
  | cons sh rest ih =>
    unfold shapeLoop
    rw [renderLoop_congr e1 e2 hclose hhead]
    generalize renderLoop e2 s (fillIndexArray sh.mesh.indices []) fuel st = r
    rcases r with ⟨stop, st1⟩
    cases stop with
    | closed => exact ih (s + 1) st1
    | fault => rfl
    | outOfFuel => rfl

/-! ## Exit status -/

/-- C1: the function `main` returns -1 exactly when the window is null, or the
API loader fails, or the loader's error string is non-empty, or the loader's
success flag is false, and it does so whatever the iteration budget; on such
a run no frame is drawn, no frame is started and no draw call is issued.  In
every other case a returned value is 0; and with a sticky close signal raised
at poll `k`, a first shape (if any) that has a face corner, and a budget above
`k`, `main` does return 0. -/
theorem main_exit_code (e : Env) (fuel : Nat) :
    ((main e fuel).status = .exited (-1) ↔
      (e.window = false ∨ e.glad = false ∨ e.err.isEmpty = false ∨ e.success = false)) ∧
    ((main e fuel).status = .exited (-1) →
      (main e fuel).frames = [] ∧ (main e fuel).aborted = [] ∧ (main e fuel).polls = 0 ∧
        ∀ c ∈ (main e fuel).calls, c.isDraw = false) ∧
    (¬ (e.window = false ∨ e.glad = false ∨ e.err.isEmpty = false ∨ e.success = false) →
      ∀ c, (main e fuel).status = .exited c → c = 0) ∧
    (¬ (e.window = false ∨ e.glad = false ∨ e.err.isEmpty = false ∨ e.success = false) →
      Sticky e.shouldClose →
      (∀ sh, e.shapes.head? = some sh → sh.mesh.indices ≠ []) →
      ∀ k, e.shouldClose k = true → k < fuel → (main e fuel).status = .exited 0) := by
  have hiff := initOk_iff e
  have key : (main e fuel).status = .exited (-1) ↔ e.initOk = false := by
    cases h : e.initOk with
    | false => simp [(main_of_initFail e fuel h).1]
    | true =>
      rcases main_status_of_initOk e fuel h with h1 | h1 | h1 <;> simp [h1]
  refine ⟨?_, ?_, ?_, ?_⟩
  · rw [key]
    cases h : e.initOk with
    | false =>
      simp only [true_iff]
      by_contra hn
      have := hiff.2 hn
      simp [h] at this
    | true => simpa using hiff.1 h
  · intro hst
    have h := key.1 hst
    obtain ⟨_, hp, hf, ha, _, _⟩ := main_of_initFail e fuel h
    exact ⟨hf, ha, hp, main_calls_no_draw_of_initFail e fuel h⟩
  · intro hn c hc
    rcases main_status_of_initOk e fuel (hiff.2 hn) with h1 | h1 | h1
    · rw [h1] at hc
      injection hc with hc
      exact hc.symm
    · rw [h1] at hc; cases hc
    · rw [h1] at hc; cases hc
  · intro hn hs hne k hk hfuel
    have hok := hiff.2 hn
    rw [(main_of_initOk e fuel hok).2.2.2.2.1]
    cases hsh : e.shapes with
    | nil => simp [shapeLoop]
    | cons sh rest =>
      have hlen : 0 < (fillIndexArray sh.mesh.indices []).length := by
        rw [fill_length]
        exact List.length_pos.2 (hne sh (by simp [hsh]))
      have h1 := renderLoop_terminates e 0 _ hlen k hk fuel ⟨0, [], []⟩ (Nat.zero_le _)
        (by simpa using hfuel)
      rw [(shapeLoop_cons_sticky e hs fuel sh rest 0 ⟨0, [], []⟩).1, h1]

/-- C1, at an input: with a loader that reports an error `main` returns -1 and
draws nothing; with the same model and a successful start it returns 0 once
the window is closed. -/
theorem main_exit_code_witness :
    (main loaderError 5).status = .exited (-1) ∧ (main loaderError 5).frames = [] ∧
      (main twoShapes 5).status = .exited 0 :=
  ⟨(main_exit_code loaderError 5).1.2 (by decide),
   ((main_exit_code loaderError 5).2.1 (by decide)).1,
   (main_exit_code twoShapes 5).2.2.2 (by decide) (sticky_threshold 2)
     (by decide) 2 (by decide) (by decide)⟩

/-! ## Index extraction -/

/-- C2: the index list built by the fill loop from a shape with `N` face
corners has exactly `N` entries; entry `i` is the vertex index of corner `i`,
stored as a `GLuint` (numerically the vertex index itself whenever that is a
non-negative 32-bit value), in corner order and without deduplication; with
`F` triangular faces, that is `N = 3 * F`, the list has `3 * F` entries and
its length is a multiple of 3. -/
theorem index_extraction (sh : shape_t) :
    (fillIndexArray sh.mesh.indices []).length = sh.mesh.indices.length ∧
    (∀ i (h : i < sh.mesh.indices.length),
      (fillIndexArray sh.mesh.indices [])[i]? =
        some (toGLuint (sh.mesh.indices.get ⟨i, h⟩).vertex_index)) ∧
    (∀ i (h : i < sh.mesh.indices.length),
      0 ≤ (sh.mesh.indices.get ⟨i, h⟩).vertex_index →
      (sh.mesh.indices.get ⟨i, h⟩).vertex_index < 4294967296 →
      ((fillIndexArray sh.mesh.indices [])[i]?).map (fun u => (u : Int)) =
        some (sh.mesh.indices.get ⟨i, h⟩).vertex_index) ∧
    (∀ F, sh.mesh.indices.length = 3 * F →
      (fillIndexArray sh.mesh.indices []).length = 3 * F ∧
        3 ∣ (fillIndexArray sh.mesh.indices []).length) := by
  have hentry : ∀ i (h : i < sh.mesh.indices.length),
      (fillIndexArray sh.mesh.indices [])[i]? =
        some (toGLuint (sh.mesh.indices.get ⟨i, h⟩).vertex_index) := by
    intro i h
    simp [fillIndexArray_eq, List.getElem?_map, List.getElem?_eq_getElem h]
  refine ⟨fill_length sh, hentry, ?_, ?_⟩
  · intro i h h0 h1
    rw [hentry i h]
    simpa using toGLuint_of_nonneg _ h0 h1
  · intro F hF
    rw [fill_length, hF]
    exact ⟨rfl, Dvd.intro F rfl⟩

/-- C2, at an input: the shape with corners on vertices 5, 6, 7, 5, 7, 8 (two
triangles sharing two vertices) gives six entries, the repeated vertices kept. -/
theorem index_extraction_witness :
    (fillIndexArray (shapeOf [5, 6, 7, 5, 7, 8]).mesh.indices [])[3]? = some 5 ∧
      (fillIndexArray (shapeOf [5, 6, 7, 5, 7, 8]).mesh.indices []).length = 3 * 2 :=
  ⟨(index_extraction (shapeOf [5, 6, 7, 5, 7, 8])).2.1 3 (by decide),
   ((index_extraction (shapeOf [5, 6, 7, 5, 7, 8])).2.2.2 2 (by decide)).1⟩

/-! ## Only the first shape is drawn -/

theorem shapeLoop_frames_first (e : Env) (hs : Sticky e.shouldClose) (fuel : Nat)
    (l : List shape_t) (s : Nat) (st : LoopSt) (hst : ∀ f ∈ st.frames, f.s = s) :
    ∀ f ∈ (shapeLoop e fuel l s st).2.frames, f.s = s := by
  cases l with
  | nil => simpa [shapeLoop] using hst
  | cons sh rest =>
    rw [(shapeLoop_cons_sticky e hs fuel sh rest s st).2.1]
    exact renderLoop_frames_inv e s _ (fun f => f.s = s) (fun _ _ => rfl) fuel st hst

/-- C3: with a sticky close signal, for every model and every close-signal
trace, every frame of the run belongs to shape number 0: the render loop of
each later shape runs zero iterations. -/
theorem later_shapes_never_drawn (e : Env) (fuel : Nat) (hs : Sticky e.shouldClose) :
    ∀ f ∈ (main e fuel).frames, f.s = 0 := by
  cases h : e.initOk with
  | false => simp [(main_of_initFail e fuel h).2.2.1]
  | true =>
    rw [(main_of_initOk e fuel h).2.1]
    exact shapeLoop_frames_first e hs fuel e.shapes 0 ⟨0, [], []⟩ (by simp)

/-- C3, at an input: two shapes and a window closed after two frames; both
frames are frames of shape 0. -/
theorem later_shapes_never_drawn_witness :
    Sticky twoShapes.shouldClose ∧ (main twoShapes 5).frames.length = 2 ∧
      ∀ f ∈ (main twoShapes 5).frames, f.s = 0 :=
  ⟨sticky_threshold 2, by decide, later_shapes_never_drawn twoShapes 5 (sticky_threshold 2)⟩

/-! ## The draw call -/

theorem every_frame_draw_count (e : Env) (fuel : Nat) :
    ∀ f ∈ (main e fuel).frames, f.calls.filter Call.isDraw =
      [.glDrawElements .GL_TRIANGLES (toGLsizei (f.mesh_indices.length / 3)) .GL_UNSIGNED_INT] := by
  intro f hf
  obtain ⟨_, v, _, _, _, hcalls⟩ := main_frames_ofShape e fuel f hf
  rw [hcalls]
  exact frame_draws e v _

/-- C4, at the failing input: for one shape of one triangle (index list of
`N = 3` entries) and a window closed after one frame, the single frame issues
exactly one draw call, in triangle-list mode, and the element count passed is
`1`, that is `N / 3`, not `N = 3`. -/
theorem draw_count_one_triangle :
    (main oneTriangle 2).status = .exited 0 ∧
      (main oneTriangle 2).frames.map
          (fun f => (f.mesh_indices.length, f.calls.filter Call.isDraw)) =
        [(3, [.glDrawElements .GL_TRIANGLES 1 .GL_UNSIGNED_INT])] := by
  decide

/-! ## Shader compilation -/

/-- C5 fails: with both shaders failing to compile and the program failing to
link, the render loop is entered all the same, two frames are drawn and `main`
returns 0. -/
theorem compile_failure_not_fatal :
    brokenShaders.vertexCompiled = false ∧ brokenShaders.fragmentCompiled = false ∧
      brokenShaders.programLinked = false ∧
      (main brokenShaders 5).frames.length = 2 ∧
      (main brokenShaders 5).status = .exited 0 := by
  decide

/-- C5, amended: the outcomes of compiling the two shaders and of linking the
program are never consulted; whatever they are, the run (exit status, calls
and frames) is the one obtained when all three succeed or fail otherwise. -/
theorem compile_outcome_ignored (e : Env) (a b c : Bool) (fuel : Nat) :
    main { e with vertexCompiled := a, fragmentCompiled := b, programLinked := c } fuel =
      main e fuel := by
  unfold main
  rw [shapeLoop_congr { e with vertexCompiled := a, fragmentCompiled := b, programLinked := c }
    e rfl rfl]
  rfl

/-! ## Vertex arrays -/

/-- C8 fails: in the run on `twoShapes` each of the two frames issues, before
its draw call, a bind of vertex array 5, a non-zero name. -/
theorem nonzero_bind_before_draw :
    (main twoShapes 5).frames.map (fun f => f.beforeDraw.filter Call.isNonzeroBind) =
      [[.glBindVertexArray 5], [.glBindVertexArray 5]] := by
  decide

/-- C8, amended: over the whole run no vertex-array or buffer creation call is
made; in every frame exactly one bind call is issued before the draw call, and
the name it binds is the value read from `mesh_indices[s]` (entry `s` of the
index list of the shape being drawn, non-zero whenever that entry is); the
only other bind of the frame comes after the draw call and binds name 0. -/
theorem vertex_array_binds (e : Env) (fuel : Nat) :
    (∀ c ∈ (main e fuel).calls, c.isCreation = false) ∧
    (∀ f ∈ (main e fuel).frames, ∃ v, f.mesh_indices[f.s]? = some v ∧
      f.beforeDraw.filter Call.isBind = [.glBindVertexArray v] ∧
      f.calls.filter Call.isBind = [.glBindVertexArray v, .glBindVertexArray 0]) := by
  refine ⟨main_calls_no_creation e fuel, ?_⟩
  intro f hf
  obtain ⟨sh, v, _, _, hv, hcalls⟩ := main_frames_ofShape e fuel f hf
  refine ⟨v, hv, ?_, ?_⟩
  · unfold Frame.beforeDraw
    rw [hcalls]
    exact frame_binds_beforeDraw e v _
  · rw [hcalls]
    exact frame_binds e v _

/-- C8 amended, at an input: the first frame of the run on `twoShapes` binds
the value read from `mesh_indices[0]`, and no other vertex array, before its
draw call. -/
theorem vertex_array_binds_witness :
    firstFrame ∈ (main twoShapes 5).frames ∧
      ∃ v, firstFrame.mesh_indices[firstFrame.s]? = some v ∧
        firstFrame.beforeDraw.filter Call.isBind = [.glBindVertexArray v] ∧
        firstFrame.calls.filter Call.isBind = [.glBindVertexArray v, .glBindVertexArray 0] :=
  ⟨by decide, (vertex_array_binds twoShapes 5).2 firstFrame (by decide)⟩

/-! ## Bounds of the read `mesh_indices[s]` -/

/-- C9: with a sticky close signal and a first shape that has at least one
face corner, no run performs an out-of-bounds read of `mesh_indices[s]`: no
frame is cut short, and every frame drawn has `s = 0` with `s` below the size
of its index list.  Without non-emptiness the read can be out of bounds: some
run with a sticky signal, an empty first shape and the window open at the
first poll performs one. -/
theorem mesh_index_read_in_bounds :
    (∀ (e : Env) (fuel : Nat), Sticky e.shouldClose →
      (∀ sh, e.shapes.head? = some sh → sh.mesh.indices ≠ []) →
      (main e fuel).status ≠ .fault ∧ (main e fuel).aborted = [] ∧
        ∀ f ∈ (main e fuel).frames, f.s = 0 ∧ f.s < f.mesh_indices.length) ∧
    (∃ (e : Env) (fuel : Nat), e.initOk = true ∧ Sticky e.shouldClose ∧
      (∃ sh, e.shapes.head? = some sh ∧ sh.mesh.indices = []) ∧
      e.shouldClose 0 = false ∧ (main e fuel).status = .fault) := by
  constructor
  · intro e fuel hs hne
    have hframes : ∀ f ∈ (main e fuel).frames, f.s = 0 ∧ f.s < f.mesh_indices.length := by
      intro f hf
      obtain ⟨_, v, _, _, hv, _⟩ := main_frames_ofShape e fuel f hf
      refine ⟨?_, ?_⟩
      · cases h : e.initOk with
        | false => simp [(main_of_initFail e fuel h).2.2.1] at hf
        | true =>
          rw [(main_of_initOk e fuel h).2.1] at hf
          exact shapeLoop_frames_first e hs fuel e.shapes 0 ⟨0, [], []⟩ (by simp) f hf
      by_contra hlt
      rw [List.getElem?_eq_none (Nat.le_of_not_lt hlt)] at hv
      cases hv
    refine ⟨?_, ?_, hframes⟩
    · cases h : e.initOk with
      | false => simp [(main_of_initFail e fuel h).1]
      | true =>
        rw [(main_of_initOk e fuel h).2.2.2.2.1]
        cases hsh : e.shapes with
        | nil => simp [shapeLoop]
        | cons sh rest =>
          have hlen : 0 < (fillIndexArray sh.mesh.indices []).length := by
            rw [fill_length]
            exact List.length_pos.2 (hne sh (by simp [hsh]))
          have h1 := (renderLoop_no_fault e 0 _ hlen fuel ⟨0, [], []⟩).1
          rw [(shapeLoop_cons_sticky e hs fuel sh rest 0 ⟨0, [], []⟩).1]
          revert h1
          cases (renderLoop e 0 (fillIndexArray sh.mesh.indices []) fuel ⟨0, [], []⟩).1 <;> simp
    · cases h : e.initOk with
      | false => exact (main_of_initFail e fuel h).2.2.2.1
      | true =>
        rw [(main_of_initOk e fuel h).2.2.1]
        cases hsh : e.shapes with
        | nil => simp [shapeLoop]
        | cons sh rest =>
          have hlen : 0 < (fillIndexArray sh.mesh.indices []).length := by
            rw [fill_length]
            exact List.length_pos.2 (hne sh (by simp [hsh]))
          rw [(shapeLoop_cons_sticky e hs fuel sh rest 0 ⟨0, [], []⟩).2.2]
          exact (renderLoop_no_fault e 0 _ hlen fuel ⟨0, [], []⟩).2
  · exact ⟨emptyFirst, 1, by decide, sticky_never, ⟨shapeOf [], by decide, by decide⟩,
      by decide, by decide⟩

/-- C9, at an input: the run on `twoShapes` (sticky signal, first shape with
three corners) performs no out-of-bounds read. -/
theorem mesh_index_read_in_bounds_witness :
    Sticky twoShapes.shouldClose ∧ (main twoShapes 5).status ≠ .fault ∧
      (main twoShapes 5).aborted = [] :=
  ⟨sticky_threshold 2,
   (mesh_index_read_in_bounds.1 twoShapes 5 (sticky_threshold 2) (by decide)).1,
   (mesh_index_read_in_bounds.1 twoShapes 5 (sticky_threshold 2) (by decide)).2.1⟩

/-! ## A model without shapes -/

/-- C10: when initialisation succeeds and the model has no shape, `main`
returns 0 whatever the iteration budget, draws no frame and never consults the
close signal; it does so even when the window is never closed, so a return
value of 0 does not imply that the user closed the window. -/
theorem zero_shapes_return :
    (∀ (e : Env) (fuel : Nat), e.initOk = true → e.shapes = [] →
      (main e fuel).status = .exited 0 ∧ (main e fuel).frames = [] ∧
        (main e fuel).aborted = [] ∧ (main e fuel).polls = 0 ∧
        ∀ c ∈ (main e fuel).calls, c.isDraw = false) ∧
    (∃ (e : Env) (fuel : Nat), (∀ k, e.shouldClose k = false) ∧
      (main e fuel).status = .exited 0) := by
  constructor
  · intro e fuel hinit hsh
    obtain ⟨hp, hf, ha, hsetup, hst, ht⟩ := main_of_initOk e fuel hinit
    rw [hsh] at hp hf ha hst ht
    simp only [shapeLoop] at hp hf ha hst ht
    refine ⟨hst, hf, ha, hp, ?_⟩
    intro c hc
    simp only [Run.calls, hf, ha, ht, hsetup, List.map_nil, List.flatten_nil,
      List.append_nil, windowCalls, shaderCalls, List.mem_append, List.mem_cons,
      List.mem_singleton, List.not_mem_nil, or_false] at hc
    rcases hc with ((hc | hc) | hc) | hc
    all_goals (repeat (rcases hc with hc | hc; · (rw [hc]; rfl)))
    all_goals (rw [hc]; rfl)
  · exact ⟨noShapes, 0, fun _ => rfl, by decide⟩

/-- C10, at an input: no shapes and a window that is never closed; `main`
returns 0 without a single poll of the close signal. -/
theorem zero_shapes_return_witness :
    (main noShapes 0).status = .exited 0 ∧ (main noShapes 0).polls = 0 :=
  ⟨(zero_shapes_return.1 noShapes 0 (by decide) (by decide)).1,
   (zero_shapes_return.1 noShapes 0 (by decide) (by decide)).2.2.2.1⟩

end RollerCoaster
